import Mathlib

/-!
Verification of the redraw-protocol interpreter in src/ui/galaxy.ts.

The interpreter state (theme colors, cursor, pending highlight attributes,
scroll region, mode registry) and every command handler are translated from
the source.  The raster surface collaborator (CanvasGrid) is not part of the
sources, so its primitives (setColor, fillRect, fillText, getImageData,
putImageData) are modelled from the specification at cell granularity.
-/

namespace Galaxy

/-- Cursor shapes, from CursorShape in canvasgrid (declared by the spec:
block, underline, bar/line). -/
inductive CursorShape
  | block
  | underline
  | line
  deriving DecidableEq, Repr

/-- One cell of the raster surface: untouched, filled with a solid color, or
carrying a glyph drawn with a text color. -/
inductive Cell
  | blank
  | filled (color : String)
  | glyph (ch : String) (color : String)
  deriving DecidableEq, Repr

/-- Modelled from the spec: a rectangular image captured by a copyRegion
(getImageData) call, at cell granularity — width, height and the captured
cell contents. -/
structure Image where
  w : Nat
  h : Nat
  data : Nat → Nat → Cell

/-- Modelled from the spec: the GridSurface raster collaborator (CanvasGrid,
not among the sources).  It holds the currently selected draw color and the
cell contents, addressed as cells row col. -/
structure Surface where
  color : String
  cells : Nat → Nat → Cell

/-- Modelled from the spec: setColor selects the draw color for later fill
and text operations. -/
def Surface.setColor (s : Surface) (c : String) : Surface :=
  { s with color := c }

/-- Modelled from the spec: fillRect(col, row, width, height) fills the
rectangle with the currently selected color. -/
def Surface.fillRect (s : Surface) (col row w h : Nat) : Surface :=
  { s with cells := fun r c =>
      if row ≤ r ∧ r < row + h ∧ col ≤ c ∧ c < col + w then Cell.filled s.color
      else s.cells r c }

/-- Modelled from the spec: fillText draws one glyph at (col, row) with the
currently selected color. -/
def Surface.fillText (s : Surface) (ch : String) (col row : Nat) : Surface :=
  { s with cells := fun r c =>
      if r = row ∧ c = col then Cell.glyph ch s.color
      else s.cells r c }

/-- Modelled from the spec: getImageData(x, y, w, h) captures the w×h
sub-image whose top-left cell is (col x, row y). -/
def Surface.getImageData (s : Surface) (x y w h : Nat) : Image :=
  { w := w, h := h, data := fun i j => s.cells (y + i) (x + j) }

/-- Modelled from the spec: putImageData pastes a captured image with its
top-left cell at (col x, row y). -/
def Surface.putImageData (s : Surface) (img : Image) (x y : Nat) : Surface :=
  { s with cells := fun r c =>
      if y ≤ r ∧ r < y + img.h ∧ x ≤ c ∧ c < x + img.w then img.data (r - y) (c - x)
      else s.cells r c }

/-- ScrollRegion, from galaxy.ts: inclusive bounds. -/
structure ScrollRegion where
  top : Nat
  bottom : Nat
  left : Nat
  right : Nat
  deriving DecidableEq, Repr

/-- Theme colors, from the colors constant in galaxy.ts. -/
structure Colors where
  fg : String
  bg : String
  sp : String
  deriving DecidableEq, Repr

/-- Highlight attributes, from the Attrs interface: resolved fg/bg strings
plus the optional protocol fields. -/
structure Attrs where
  fg : String := ""
  bg : String := ""
  foreground : Option Int := none
  background : Option Int := none
  special : Option String := none
  reverse : Option String := none
  deriving DecidableEq, Repr

/-- A mode entry, from the Mode interface: shape, size percentage, optional
resolved color. -/
structure Mode where
  shape : CursorShape
  size : Option Nat := none
  color : Option String := none
  deriving DecidableEq, Repr

/-- Logical cursor position in cell units. -/
structure Cursor where
  row : Nat
  col : Nat
  deriving DecidableEq, Repr

/-- The interpreter state of galaxy.ts: the module-level mutables (colors,
modes, lastScrollRegion, nextAttrs) together with the ui collaborator state
(cursor, logical geometry, cursor shape, surface).  nextAttrs is Option
because the source declares it without an initial value (undefined). -/
structure GalaxyState where
  colors : Colors
  cursor : Cursor
  cols : Nat
  rows : Nat
  lastScrollRegion : Option ScrollRegion
  nextAttrs : Option Attrs
  modes : List (String × Mode)
  cursorShape : CursorShape
  cursorSize : Option Nat
  surface : Surface

/-- JavaScript truthiness of an optional number: present and nonzero. -/
def jsNumTruthy : Option Int → Bool
  | none => false
  | some n => n ≠ 0

/-- JavaScript truthiness of an optional string: present and non-empty. -/
def jsStrTruthy : Option String → Bool
  | none => false
  | some s => s ≠ ""

/-- Two lowercase hex digits for a byte, from asColor: toString(16) padded
to width 2. -/
def hex2 (n : Nat) : String :=
  let s := String.mk (Nat.toDigits 16 n)
  if s.length < 2 then "0" ++ s else s

/-- asColor from galaxy.ts: pack a protocol color number into a hash-hex
string, one byte per component via shifts 16, 8, 0.  JavaScript bitwise
operators act on the 32-bit twos-complement image of the number, which for
the masked nonnegative components is arithmetic modulo 2^32. -/
def asColor (color : Int) : String :=
  let u := (color % (2 ^ 32 : Int)).toNat
  "#" ++ hex2 ((u / 2 ^ 16) % 2 ^ 8) ++ hex2 ((u / 2 ^ 8) % 2 ^ 8) ++ hex2 (u % 2 ^ 8)

/-- cursorShapeType from galaxy.ts. -/
def cursorShapeType : Option String → CursorShape
  | some "block" => CursorShape.block
  | some "horizontal" => CursorShape.underline
  | some "vertical" => CursorShape.line
  | _ => CursorShape.block

/-- defaultScrollRegion from galaxy.ts, verbatim: top 0, left 0, right =
ui.cols, bottom = ui.rows. -/
def defaultScrollRegion (s : GalaxyState) : ScrollRegion :=
  { top := 0, left := 0, right := s.cols, bottom := s.rows }

/-- moveRegionUp from galaxy.ts: capture the slice below the first amount
rows of the region, paste it at the top, fill the exposed bottom strip with
the background color. -/
def moveRegionUp (amount : Nat) (rg : ScrollRegion) (surf : Surface) (bg : String) : Surface :=
  let slice := surf.getImageData rg.left (rg.top + amount) (rg.right - rg.left + 1)
    (rg.bottom - (rg.top + amount) + 1)
  (((surf.putImageData slice rg.left rg.top).setColor bg).fillRect
    rg.left (rg.bottom - amount + 1) (rg.right - rg.left + 1) amount)

/-- moveRegionDown from galaxy.ts: capture the upper slice of the region,
paste it amount rows lower, fill the exposed top strip with the background
color. -/
def moveRegionDown (amount : Nat) (rg : ScrollRegion) (surf : Surface) (bg : String) : Surface :=
  let slice := surf.getImageData rg.left rg.top (rg.right - rg.left + 1)
    (rg.bottom - (rg.top + amount) + 1)
  (((surf.putImageData slice rg.left (rg.top + amount)).setColor bg).fillRect
    rg.left rg.top (rg.right - rg.left + 1) amount)

/-- r.update_fg: set the theme foreground unless the argument is -1 (the
source guards with fg > -1). -/
def r_update_fg (fg : Int) (s : GalaxyState) : GalaxyState :=
  if fg > -1 then { s with colors := { s.colors with fg := asColor fg } } else s

/-- r.update_bg: set the theme background unless the argument is -1. -/
def r_update_bg (bg : Int) (s : GalaxyState) : GalaxyState :=
  if bg > -1 then { s with colors := { s.colors with bg := asColor bg } } else s

/-- r.update_sp: set the theme special color unless the argument is -1. -/
def r_update_sp (sp : Int) (s : GalaxyState) : GalaxyState :=
  if sp > -1 then { s with colors := { s.colors with sp := asColor sp } } else s

/-- r.cursor_goto: set the logical cursor position directly, no clamping. -/
def r_cursor_goto (row col : Nat) (s : GalaxyState) : GalaxyState :=
  { s with cursor := { row := row, col := col } }

/-- r.set_scroll_region: save the region for the next scroll. -/
def r_set_scroll_region (top bottom left right : Nat) (s : GalaxyState) : GalaxyState :=
  { s with lastScrollRegion := some { top := top, bottom := bottom, left := left, right := right } }

/-- r.highlight_set, mirroring the mutation sequence of the source: resolve
attrs.fg from the truthiness of attrs.foreground, attrs.bg from
attrs.background, store the object as nextAttrs, then if attrs.reverse is
truthy merge the swapped pair over it. -/
def r_highlight_set (attrs : Attrs) (s : GalaxyState) : GalaxyState :=
  let a1 := { attrs with
    fg := if jsNumTruthy attrs.foreground then asColor (attrs.foreground.getD 0) else s.colors.fg }
  let a2 := { a1 with
    bg := if jsNumTruthy a1.background then asColor (a1.background.getD 0) else s.colors.bg }
  let a3 := if jsStrTruthy a2.reverse then { a2 with bg := a2.fg, fg := a2.bg } else a2
  { s with nextAttrs := some a3 }

/-- r.mode_change: look the mode up by name; when found apply its shape and
size to the cursor, otherwise do nothing. -/
def r_mode_change (mode : String) (s : GalaxyState) : GalaxyState :=
  match s.modes.lookup mode with
  | some info => { s with cursorShape := info.shape, cursorSize := info.size }
  | none => s

/-- The surface update performed by r.scroll for a given region: amount > 0
dispatches to moveRegionUp, otherwise to moveRegionDown with the sign
flipped. -/
def applyScrollAmount (amount : Int) (rg : ScrollRegion) (s : GalaxyState) : Surface :=
  if amount > 0 then moveRegionUp amount.toNat rg s.surface s.colors.bg
  else moveRegionDown (-amount).toNat rg s.surface s.colors.bg

/-- r.scroll: operate on lastScrollRegion when set, else the default region,
then clear lastScrollRegion. -/
def r_scroll (amount : Int) (s : GalaxyState) : GalaxyState :=
  let rg := s.lastScrollRegion.getD (defaultScrollRegion s)
  { s with surface := applyScrollAmount amount rg s, lastScrollRegion := none }

/-- The glyph of one put arg-tuple: the source reads m[ix][0]; an empty
tuple would read undefined, which fillText would coerce to a string. -/
def cellChar (t : List String) : String :=
  t.headD "undefined"

/-- The per-glyph loop of r.put: draw the glyph at the cursor, advance the
column, and wrap to column 0 of the next row when the column exceeds
ui.cols. -/
def putLoop (cols : Nat) : List (List String) → Cursor → Surface → Cursor × Surface
  | [], cur, surf => (cur, surf)
  | t :: rest, cur, surf =>
    let surf := surf.fillText (cellChar t) cur.col cur.row
    let col := cur.col + 1
    let cur := if col > cols then { row := cur.row + 1, col := 0 } else { cur with col := col }
    putLoop cols rest cur surf

/-- r.put: no-op on an empty run; otherwise paint the background rectangle
of the run at the cursor with nextAttrs.bg, select nextAttrs.fg, and run the
glyph loop.  Reading nextAttrs before any highlight_set is a TypeError in
the source (nextAttrs is undefined), hence the Except. -/
def r_put (m : List (List String)) (s : GalaxyState) : Except String GalaxyState :=
  if m.length = 0 then Except.ok s else
  match s.nextAttrs with
  | none => Except.error "TypeError: nextAttrs is undefined"
  | some attrs =>
    let surf := ((s.surface.setColor attrs.bg).fillRect s.cursor.col s.cursor.row m.length 1).setColor attrs.fg
    let res := putLoop s.cols m s.cursor surf
    Except.ok { s with cursor := res.1, surface := res.2 }

/-- One batch entry on the wire: a command name with its list of arg-tuples.
put is the exception whose tuples are delivered merged as one call; names
outside the table are carried as unknown. -/
inductive Entry
  | update_fg (tuples : List Int)
  | update_bg (tuples : List Int)
  | update_sp (tuples : List Int)
  | cursor_goto (tuples : List (Nat × Nat))
  | set_scroll_region (tuples : List (Nat × Nat × Nat × Nat))
  | highlight_set (tuples : List Attrs)
  | scroll (tuples : List Int)
  | mode_change (tuples : List String)
  | put (m : List (List String))
  | unknown (name : String)

/-- Dispatch of one batch entry, from the onRedraw handler: a known
non-put command is invoked once per arg-tuple in order, put receives the
whole run in one call, an unknown name is skipped. -/
def dispatchEntry : Entry → GalaxyState → Except String GalaxyState
  | Entry.update_fg ts, s => Except.ok (ts.foldl (fun s c => r_update_fg c s) s)
  | Entry.update_bg ts, s => Except.ok (ts.foldl (fun s c => r_update_bg c s) s)
  | Entry.update_sp ts, s => Except.ok (ts.foldl (fun s c => r_update_sp c s) s)
  | Entry.cursor_goto ts, s => Except.ok (ts.foldl (fun s a => r_cursor_goto a.1 a.2 s) s)
  | Entry.set_scroll_region ts, s =>
      Except.ok (ts.foldl (fun s a => r_set_scroll_region a.1 a.2.1 a.2.2.1 a.2.2.2 s) s)
  | Entry.highlight_set ts, s => Except.ok (ts.foldl (fun s a => r_highlight_set a s) s)
  | Entry.scroll ts, s => Except.ok (ts.foldl (fun s a => r_scroll a s) s)
  | Entry.mode_change ts, s => Except.ok (ts.foldl (fun s n => r_mode_change n s) s)
  | Entry.put m, s => r_put m s
  | Entry.unknown _, s => Except.ok s

/-- The dispatch loop of the onRedraw handler: entries in array order; the
loop body has no exception handling, so a failing dispatch propagates and
aborts the rest. -/
def dispatchLoop : List Entry → GalaxyState → Except String GalaxyState
  | [], s => Except.ok s
  | e :: rest, s =>
    match dispatchEntry e s with
    | Except.ok s1 => dispatchLoop rest s1
    | Except.error err => Except.error err

/-- One whole onRedraw batch: run the dispatch loop, then clear
lastScrollRegion (the line after the loop, reached only when no dispatch
threw). -/
def dispatchBatch (batch : List Entry) (s : GalaxyState) : Except String GalaxyState :=
  match dispatchLoop batch s with
  | Except.ok s1 => Except.ok { s1 with lastScrollRegion := none }
  | Except.error err => Except.error err

/-- The initial module state of galaxy.ts for a given geometry: the colors
constant, empty mode registry, no scroll region, nextAttrs undefined, a
blank surface, cursor at the origin, block cursor shape. -/
def initState (cols rows : Nat) : GalaxyState :=
  { colors := { fg := "#ccc", bg := "#222", sp := "#f00" }
    cursor := { row := 0, col := 0 }
    cols := cols
    rows := rows
    lastScrollRegion := none
    nextAttrs := none
    modes := []
    cursorShape := CursorShape.block
    cursorSize := none
    surface := { color := "", cells := fun _ _ => Cell.blank } }

end Galaxy

namespace Galaxy

/-- The resolution rule for highlight_set, stated independently of the
mutation order of the handler: resolved foreground is the explicit color when
present and nonzero, else the theme foreground; likewise background; a
truthy reverse flag swaps the resolved pair. -/
def resolveHighlight (attrs : Attrs) (cs : Colors) : Attrs :=
  let rfg := if jsNumTruthy attrs.foreground then asColor (attrs.foreground.getD 0) else cs.fg
  let rbg := if jsNumTruthy attrs.background then asColor (attrs.background.getD 0) else cs.bg
  if jsStrTruthy attrs.reverse then { attrs with fg := rbg, bg := rfg }
  else { attrs with fg := rfg, bg := rbg }

/-- C10: update_fg, update_bg and update_sp leave the corresponding theme
color unchanged for every argument ≤ -1, and set it to the packed color for
every argument > -1, including 0. -/
theorem C10_update_color_sentinel (c : Int) (s : GalaxyState) :
    (c ≤ -1 → r_update_fg c s = s ∧ r_update_bg c s = s ∧ r_update_sp c s = s) ∧
    (-1 < c →
      (r_update_fg c s).colors.fg = asColor c ∧
      (r_update_bg c s).colors.bg = asColor c ∧
      (r_update_sp c s).colors.sp = asColor c) := by
  constructor
  · intro h
    have hn : ¬ (-1 : Int) < c := not_lt.mpr h
    simp [r_update_fg, r_update_bg, r_update_sp, hn]
  · intro h
    simp [r_update_fg, r_update_bg, r_update_sp, h]

/-- C10 witness: update_fg 0 sets the foreground to asColor 0, and
update_fg (-2) leaves the state unchanged. -/
theorem C10_witness :
    (r_update_fg 0 (initState 10 5)).colors.fg = asColor 0 ∧
    r_update_fg (-2) (initState 10 5) = initState 10 5 :=
  ⟨((C10_update_color_sentinel 0 (initState 10 5)).2 (by decide)).1,
   ((C10_update_color_sentinel (-2) (initState 10 5)).1 (by decide)).1⟩

/-- C9: mode_change never throws, and for a name absent from the registry —
in particular one whose asynchronous color resolution has not completed yet,
since the entry is stored only after resolution — it leaves the state, in
particular the active cursor shape, unchanged. -/
theorem C9_mode_change_safe (name : String) (ts : List String) (s : GalaxyState) :
    (∃ s1, dispatchEntry (Entry.mode_change ts) s = Except.ok s1) ∧
    (s.modes.lookup name = none → r_mode_change name s = s) := by
  refine ⟨⟨_, rfl⟩, fun h => ?_⟩
  simp [r_mode_change, h]

/-- C9 witness: in the initial state the registry is empty, so mode_change
for any name is a no-op and dispatch succeeds. -/
theorem C9_witness :
    (∃ s1, dispatchEntry (Entry.mode_change ["insert"]) (initState 10 5) = Except.ok s1) ∧
    r_mode_change "insert" (initState 10 5) = initState 10 5 :=
  ⟨(C9_mode_change_safe "insert" ["insert"] (initState 10 5)).1,
   (C9_mode_change_safe "insert" ["insert"] (initState 10 5)).2 rfl⟩

/-- C5: for a 10-column, 5-row grid the default scroll region of the code is
top 0, left 0, right 10, bottom 5 — right and bottom equal the column and
row counts, one past the last valid indices 9 and 4 that the claimed
inclusive-bounds whole-grid default requires. -/
theorem C5_default_region_off_by_one :
    defaultScrollRegion (initState 10 5) =
      { top := 0, bottom := 5, left := 0, right := 10 } ∧
    (defaultScrollRegion (initState 10 5)).right ≠ 10 - 1 ∧
    (defaultScrollRegion (initState 10 5)).bottom ≠ 5 - 1 :=
  ⟨rfl, by decide, by decide⟩

/-- C4: every scroll call clears the saved region; every successfully
dispatched batch ends with the saved region cleared; and a scroll that
finds no saved region applies the whole-grid default region. -/
theorem C4_scroll_region_one_shot :
    (∀ (a : Int) (s : GalaxyState), (r_scroll a s).lastScrollRegion = none) ∧
    (∀ (batch : List Entry) (s s1 : GalaxyState),
      dispatchBatch batch s = Except.ok s1 → s1.lastScrollRegion = none) ∧
    (∀ (a : Int) (s : GalaxyState), s.lastScrollRegion = none →
      (r_scroll a s).surface = applyScrollAmount a (defaultScrollRegion s) s) := by
  refine ⟨fun a s => rfl, ?_, ?_⟩
  · intro batch s s1 h
    unfold dispatchBatch at h
    cases hl : dispatchLoop batch s with
    | ok s2 =>
      rw [hl] at h
      injection h with h1
      rw [← h1]
    | error err =>
      rw [hl] at h
      exact Except.noConfusion h
  · intro a s h
    simp [r_scroll, h]

/-- C4 witness: concrete one-shot behavior on the initial 10×5 state. -/
theorem C4_witness :
    (r_scroll 1 (initState 10 5)).lastScrollRegion = none ∧
    (initState 10 5).lastScrollRegion = none ∧
    (r_scroll 2 (initState 10 5)).surface =
      applyScrollAmount 2 (defaultScrollRegion (initState 10 5)) (initState 10 5) :=
  ⟨C4_scroll_region_one_shot.1 1 (initState 10 5),
   C4_scroll_region_one_shot.2.1 [] (initState 10 5) (initState 10 5) rfl,
   C4_scroll_region_one_shot.2.2 2 (initState 10 5) rfl⟩

/-- C3 counterexample: highlight_set with explicit foreground 0 stores the
theme default "#ccc" as the effective foreground, not asColor 0 =
"#000000" as the claim requires for every provided numeric foreground. -/
theorem C3_counterexample :
    (r_highlight_set { foreground := some 0 } (initState 10 5)).nextAttrs =
      some { fg := "#ccc", bg := "#222", foreground := some 0 } ∧
    asColor 0 = "#000000" ∧ "#ccc" ≠ "#000000" :=
  ⟨rfl, rfl, by decide⟩

/-- C3 amended: highlight_set stores as pending exactly the resolution
where an explicit color is used only when present and truthy (nonzero), the
theme default otherwise, with the resolved pair swapped when the reverse
flag is truthy. -/
theorem C3_highlight_set_resolves (attrs : Attrs) (s : GalaxyState) :
    r_highlight_set attrs s = { s with nextAttrs := some (resolveHighlight attrs s.colors) } := rfl

end Galaxy

namespace Galaxy

/-- The claimed pointwise effect of an upward scroll on a region with
inclusive bounds: inside the region and inside its column range, a row that
has a source row amount below it inside the region receives the content of
that source row, the exposed bottom strip becomes background fill; everything else
is untouched. -/
def scrollUpSpec (a : Nat) (rg : ScrollRegion) (old : Nat → Nat → Cell) (bg : String) :
    Nat → Nat → Cell := fun r c =>
  if rg.left ≤ c ∧ c ≤ rg.right ∧ rg.top ≤ r ∧ r ≤ rg.bottom then
    if r + a ≤ rg.bottom then old (r + a) c else Cell.filled bg
  else old r c

/-- The claimed pointwise effect of a downward scroll: inside the region,
rows at least amount below the top receive the content from amount rows
above, the exposed top strip becomes background fill; everything else is
untouched. -/
def scrollDownSpec (a : Nat) (rg : ScrollRegion) (old : Nat → Nat → Cell) (bg : String) :
    Nat → Nat → Cell := fun r c =>
  if rg.left ≤ c ∧ c ≤ rg.right ∧ rg.top ≤ r ∧ r ≤ rg.bottom then
    if rg.top + a ≤ r then old (r - a) c else Cell.filled bg
  else old r c

/-- moveRegionUp realizes the claimed copy-up-and-fill description
pointwise. -/
theorem moveRegionUp_cells (a : Nat) (rg : ScrollRegion) (surf : Surface) (bg : String)
    (ha : 0 < a) (hab : rg.top + a ≤ rg.bottom) (hlr : rg.left ≤ rg.right) :
    (moveRegionUp a rg surf bg).cells = scrollUpSpec a rg surf.cells bg := by
  funext r c
  simp only [moveRegionUp, Surface.getImageData, Surface.putImageData, Surface.setColor,
    Surface.fillRect, scrollUpSpec]
  split_ifs <;>
    first
      | rfl
      | (exfalso; omega)
      | (have hx : rg.top + a + (r - rg.top) = r + a := by omega
         have hy : rg.left + (c - rg.left) = c := by omega
         rw [hx, hy])

/-- moveRegionDown realizes the claimed copy-down-and-fill description
pointwise. -/
theorem moveRegionDown_cells (a : Nat) (rg : ScrollRegion) (surf : Surface) (bg : String)
    (ha : 0 < a) (hab : rg.top + a ≤ rg.bottom) (hlr : rg.left ≤ rg.right) :
    (moveRegionDown a rg surf bg).cells = scrollDownSpec a rg surf.cells bg := by
  funext r c
  simp only [moveRegionDown, Surface.getImageData, Surface.putImageData, Surface.setColor,
    Surface.fillRect, scrollDownSpec]
  split_ifs <;>
    first
      | rfl
      | (exfalso; omega)
      | (have hx : rg.top + (r - (rg.top + a)) = r - a := by omega
         have hy : rg.left + (c - rg.left) = c := by omega
         rw [hx, hy])

end Galaxy

namespace Galaxy

/-- C2: with a saved region of inclusive bounds, scroll with amount > 0
copies the sub-image starting at row top+amount of height
bottom-top+1-amount to the top and background-fills the exposed bottom
strip of height amount, and scroll with amount < 0 copies the upper
sub-image down by the magnitude and background-fills the exposed top strip,
everything constrained to columns left..right — stated pointwise through
scrollUpSpec and scrollDownSpec. -/
theorem C2_scroll_region_semantics (s : GalaxyState) (rg : ScrollRegion) (amount : Int)
    (hreg : s.lastScrollRegion = some rg)
    (hlr : rg.left ≤ rg.right)
    (hup : 0 < amount → rg.top + amount.toNat ≤ rg.bottom)
    (hdn : amount < 0 → rg.top + (-amount).toNat ≤ rg.bottom) :
    (0 < amount →
      (r_scroll amount s).surface.cells =
        scrollUpSpec amount.toNat rg s.surface.cells s.colors.bg) ∧
    (amount < 0 →
      (r_scroll amount s).surface.cells =
        scrollDownSpec (-amount).toNat rg s.surface.cells s.colors.bg) := by
  constructor
  · intro h
    have ha : 0 < amount.toNat := by omega
    simp only [r_scroll, hreg, Option.getD, applyScrollAmount, if_pos h]
    exact moveRegionUp_cells _ _ _ _ ha (hup h) hlr
  · intro h
    have hng : ¬ amount > 0 := by omega
    have ha : 0 < (-amount).toNat := by omega
    simp only [r_scroll, hreg, Option.getD, applyScrollAmount, if_neg hng]
    exact moveRegionDown_cells _ _ _ _ ha (hdn h) hlr

/-- A concrete state carrying a saved scroll region, for the C2 witness. -/
def scrollTestState : GalaxyState :=
  { initState 10 5 with lastScrollRegion := some { top := 1, bottom := 4, left := 2, right := 8 } }

/-- C2 witness: the theorem applied at the saved region (1,4,2,8) with
amounts 2 and -2. -/
theorem C2_witness :
    (r_scroll 2 scrollTestState).surface.cells =
      scrollUpSpec (Int.toNat 2) { top := 1, bottom := 4, left := 2, right := 8 }
        scrollTestState.surface.cells scrollTestState.colors.bg ∧
    (r_scroll (-2) scrollTestState).surface.cells =
      scrollDownSpec (Int.toNat (-(-2))) { top := 1, bottom := 4, left := 2, right := 8 }
        scrollTestState.surface.cells scrollTestState.colors.bg :=
  ⟨(C2_scroll_region_semantics scrollTestState _ 2 rfl (by decide) (by decide) (by decide)).1
      (by decide),
   (C2_scroll_region_semantics scrollTestState _ (-2) rfl (by decide) (by decide) (by decide)).2
      (by decide)⟩

end Galaxy

namespace Galaxy

/-- C1: on a 10×5 grid with a pending attribute set, cursor_goto(2,3)
followed by put of the run a, b, c paints a at (row 2, col 3), b at (2,4),
c at (2,5) — each glyph at the column current when it is drawn — and leaves
the logical cursor at row 2, column 6. -/
theorem C1_put_end_to_end (s : GalaxyState) (attrs : Attrs)
    (hcols : s.cols = 10) (hrows : s.rows = 5) (hattrs : s.nextAttrs = some attrs) :
    ∃ s1, r_put [["a"], ["b"], ["c"]] (r_cursor_goto 2 3 s) = Except.ok s1 ∧
      s1.surface.cells 2 3 = Cell.glyph "a" attrs.fg ∧
      s1.surface.cells 2 4 = Cell.glyph "b" attrs.fg ∧
      s1.surface.cells 2 5 = Cell.glyph "c" attrs.fg ∧
      s1.cursor.row = 2 ∧ s1.cursor.col = 6 := by
  obtain ⟨cs, cur, cols, rows, lsr, na, mo, csh, csz, surf⟩ := s
  simp only at hcols hrows hattrs
  subst hcols hrows hattrs
  exact ⟨_, rfl, rfl, rfl, rfl, rfl, rfl⟩

/-- The pending attribute set used by the concrete put tests. -/
def putTestAttrs : Attrs := { fg := "#eee", bg := "#111" }

/-- A 10×5 state with a pending attribute set. -/
def putTestState : GalaxyState := { initState 10 5 with nextAttrs := some putTestAttrs }

/-- C1 witness: the end-to-end run on the concrete 10×5 test state. -/
theorem C1_witness :
    ∃ s1, r_put [["a"], ["b"], ["c"]] (r_cursor_goto 2 3 putTestState) = Except.ok s1 ∧
      s1.surface.cells 2 3 = Cell.glyph "a" putTestAttrs.fg ∧
      s1.surface.cells 2 4 = Cell.glyph "b" putTestAttrs.fg ∧
      s1.surface.cells 2 5 = Cell.glyph "c" putTestAttrs.fg ∧
      s1.cursor.row = 2 ∧ s1.cursor.col = 6 :=
  C1_put_end_to_end putTestState putTestAttrs rfl rfl rfl

end Galaxy

namespace Galaxy

/-- A 10×5 state with the cursor at column 9 of row 0 and a pending
attribute set, for the wrap counterexample. -/
def wrapTestState : GalaxyState :=
  { initState 10 5 with cursor := { row := 0, col := 9 }, nextAttrs := some putTestAttrs }

/-- C6 counterexample: with 10 columns and the cursor at column 9, putting
two glyphs draws the second at column 10 of the same row — a column outside
the valid range 0..9 — and leaves cell (1,0) untouched, although the
advancing column had already left the valid range after the first glyph;
the wrap fires only once the column exceeds cols itself. -/
theorem C6_counterexample :
    ∃ s1, r_put [["x"], ["y"]] wrapTestState = Except.ok s1 ∧
      s1.surface.cells 0 10 = Cell.glyph "y" "#eee" ∧
      s1.surface.cells 1 0 = Cell.blank ∧
      s1.cursor.row = 1 ∧ s1.cursor.col = 0 :=
  ⟨_, rfl, rfl, rfl, rfl, rfl⟩

/-- C6 amended: after each glyph the column advances by one, and the wrap
to column 0 of the next row fires exactly when the advanced column strictly
exceeds cols (so a glyph can land at column cols, one past the last valid
column); put never touches the scroll machinery — it leaves the saved
scroll region exactly as it was. -/
theorem C6_wrap_strictly_after_cols :
    (∀ (cols : Nat) (t : List String) (rest : List (List String)) (cur : Cursor)
        (surf : Surface),
      putLoop cols (t :: rest) cur surf =
        putLoop cols rest
          (if cur.col + 1 > cols then { row := cur.row + 1, col := 0 }
           else { cur with col := cur.col + 1 })
          (surf.fillText (cellChar t) cur.col cur.row)) ∧
    (∀ (m : List (List String)) (s s1 : GalaxyState),
      r_put m s = Except.ok s1 → s1.lastScrollRegion = s.lastScrollRegion) := by
  refine ⟨fun cols t rest cur surf => rfl, fun m s s1 h => ?_⟩
  by_cases hm : m.length = 0
  · rw [r_put, if_pos hm] at h
    injection h with h1
    rw [← h1]
  · rw [r_put, if_neg hm] at h
    cases hna : s.nextAttrs with
    | none =>
      rw [hna] at h
      exact Except.noConfusion h
    | some attrs =>
      rw [hna] at h
      injection h with h1
      rw [← h1]

/-- C6 amended witness: one wrap step at cols = 10, col = 9 (no wrap: the
advanced column is 10, not above 10), and put preserving the saved scroll
region on a concrete state. -/
theorem C6_witness :
    putLoop 10 [["y"]] { row := 0, col := 9 } wrapTestState.surface =
      putLoop 10 []
        (if 9 + 1 > 10 then { row := 0 + 1, col := 0 } else { row := 0, col := 9 + 1 })
        (wrapTestState.surface.fillText (cellChar ["y"]) 9 0) ∧
    ((r_put [["x"], ["y"]] wrapTestState).toOption.getD wrapTestState).lastScrollRegion =
      wrapTestState.lastScrollRegion :=
  ⟨C6_wrap_strictly_after_cols.1 10 ["y"] [] { row := 0, col := 9 } wrapTestState.surface,
   C6_wrap_strictly_after_cols.2 [["x"], ["y"]] wrapTestState _ rfl⟩

end Galaxy

namespace Galaxy

/-- The highlight attributes used by the persistence counterexample: an
explicit red foreground. -/
def hlRedAttrs : Attrs := { foreground := some 0xff0000 }

/-- The state after highlight_set(red) on the initial 10×5 state. -/
def c7s1 : GalaxyState := r_highlight_set hlRedAttrs (initState 10 5)

/-- C7 counterexample: after highlight_set(red) and a first put, a second
put still paints with the red foreground stored by that highlight_set —
the pending attribute set is not discarded after the first put, contrary
to the claim that it no longer applies to later put commands. -/
theorem C7_counterexample :
    ∃ s2, Except.bind (r_put [["a"]] c7s1) (r_put [["b"]]) = Except.ok s2 ∧
      s2.surface.cells 0 1 = Cell.glyph "b" "#ff0000" ∧
      s2.nextAttrs = c7s1.nextAttrs ∧
      "#ff0000" ≠ "#ccc" :=
  ⟨_, rfl, rfl, rfl, by decide⟩

/-- C7 amended: the single pending attribute slot is read but never
cleared by put — a successful put leaves nextAttrs exactly as it was, so
the last highlight_set keeps applying to every later put until a new
highlight_set replaces it. -/
theorem C7_pending_attrs_persist (m : List (List String)) (s s1 : GalaxyState)
    (h : r_put m s = Except.ok s1) : s1.nextAttrs = s.nextAttrs := by
  by_cases hm : m.length = 0
  · rw [r_put, if_pos hm] at h
    injection h with h1
    rw [← h1]
  · rw [r_put, if_neg hm] at h
    cases hna : s.nextAttrs with
    | none =>
      rw [hna] at h
      exact Except.noConfusion h
    | some attrs =>
      rw [hna] at h
      injection h with h1
      rw [← h1]

/-- C7 amended witness: a concrete put leaves the pending attribute set
untouched. -/
theorem C7_witness :
    ((r_put [["b"]] c7s1).toOption.getD c7s1).nextAttrs = c7s1.nextAttrs :=
  C7_pending_attrs_persist [["b"]] c7s1 _ rfl

/-- C8 counterexample: in the initial state nextAttrs is still undefined,
so the put handler throws; the batch holding that put followed by a
cursor_goto ends in the error — the cursor_goto is never dispatched — while
the same batch on a state whose put succeeds does reach the cursor_goto. -/
theorem C8_counterexample :
    dispatchBatch [Entry.put [["a"]], Entry.cursor_goto [(1, 1)]] (initState 10 5) =
      Except.error "TypeError: nextAttrs is undefined" ∧
    (∀ s1, dispatchBatch [Entry.put [["a"]], Entry.cursor_goto [(1, 1)]] (initState 10 5) ≠
      Except.ok s1) ∧
    (∃ s2, dispatchBatch [Entry.put [["a"]], Entry.cursor_goto [(1, 1)]] putTestState =
      Except.ok s2 ∧ s2.cursor = { row := 1, col := 1 }) := by
  refine ⟨rfl, fun s1 h => ?_, ⟨_, rfl, rfl⟩⟩
  rw [show dispatchBatch [Entry.put [["a"]], Entry.cursor_goto [(1, 1)]] (initState 10 5) =
    Except.error "TypeError: nextAttrs is undefined" from rfl] at h
  exact Except.noConfusion h

/-- C8 amended: command dispatch inside a batch is not isolated — the
dispatch loop has no exception handling, so an entry whose handler throws
makes the whole loop, and with it the batch, stop with that error; the
remaining entries are never dispatched. -/
theorem C8_error_aborts_batch (e : Entry) (rest : List Entry) (s : GalaxyState) (err : String)
    (h : dispatchEntry e s = Except.error err) :
    dispatchLoop (e :: rest) s = Except.error err ∧
    dispatchBatch (e :: rest) s = Except.error err := by
  have h1 : dispatchLoop (e :: rest) s = Except.error err := by
    rw [dispatchLoop, h]
  exact ⟨h1, by rw [dispatchBatch, h1]⟩

/-- C8 amended witness: the failing put aborts the concrete batch. -/
theorem C8_witness :
    dispatchLoop [Entry.put [["a"]], Entry.cursor_goto [(1, 1)]] (initState 10 5) =
      Except.error "TypeError: nextAttrs is undefined" ∧
    dispatchBatch [Entry.put [["a"]], Entry.cursor_goto [(1, 1)]] (initState 10 5) =
      Except.error "TypeError: nextAttrs is undefined" :=
  C8_error_aborts_batch (Entry.put [["a"]]) [Entry.cursor_goto [(1, 1)]] (initState 10 5)
    "TypeError: nextAttrs is undefined" rfl

end Galaxy
